import Mathlib

/-!
Verification of `pkg/notify/notifier/wechat/wechat.go` from the
notification-manager repository: a shallow embedding of the wechat channel
notifier (receiver merging, destination batching, message dispatch with a
single token-expiry retry) together with theorems settling the spec's claims.
-/

namespace Wechat

/-! Section: Constants (wechat.go lines 19-29) -/

def DefaultApiURL : String := "https://qyapi.weixin.qq.com/cgi-bin/"

def ToUserBatchSize : Nat := 1000

def ToPartyBatchSize : Nat := 100

def ToTagBatchSize : Nat := 100

def AccessTokenInvalid : Int := 42001

def MessageMaxSize : Nat := 2048

/-! Section: Data model

`config.WechatConfig` and `config.Wechat` are used by wechat.go through the
fields `APIURL`, `AgentID`, `CorpID`, `APISecret`, `ToUser`, `ToParty`,
`ToTag`; we embed exactly those fields. -/

structure WechatConfig where
  apiURL : String
  agentID : String
  corpID : String
  apiSecret : String
deriving DecidableEq, Repr

structure WechatReceiver where
  wechatConfig : WechatConfig
  toUser : String
  toParty : String
  toTag : String
deriving DecidableEq, Repr

/-! Section: The batching utility (wechat.go lines 338-358)

`batch(src, index, size)` mutates the cursor `*index`; we embed it as a pure
function returning the produced string together with the new cursor.  The
local slice `sub` of the source is split out as `batchSub` so that theorems
can speak about the selected recipients as a list. -/

/-- The slice `sub` computed by `batch`: empty when the cursor is strictly past
the end of `src`, otherwise `src[index:]` when fewer than `size` entries
remain and `src[index : index+size]` otherwise. -/
def batchSub (src : List String) (index size : Nat) : List String :=
  if index > src.length then []
  else if index + size > src.length then src.drop index
  else (src.drop index).take size

/-- The function `batch` from wechat.go: returns the `"|"`-terminated concatenation of the
selected recipients and the updated cursor.  The cursor advances by `size`
exactly when `index ≤ len(src)`; when the cursor is already strictly past the
end the function returns `""` without touching the cursor. -/
def batch (src : List String) (index size : Nat) : String × Nat :=
  if index > src.length then ("", index)
  else ((batchSub src index size).foldl (fun acc t => acc ++ t ++ "|") "", index + size)

/-! Section: The batching loop of `Notifier.Notify` (wechat.go lines 259-280)

Per transport instance the loop keeps three cursors `us, ps, ts`, exits once
all three are at or past their lists' lengths, and otherwise assigns the three
batch strings into the shared clone `nw` and registers one task per message
chunk. -/

structure Cursors where
  us : Nat
  ps : Nat
  ts : Nat
deriving DecidableEq, Repr

/-- The loop's exit condition: `us >= len(toUser) && ps >= len(toParty) &&
ts >= len(toTag)`. -/
def loopDone (toUser toParty toTag : List String) (s : Cursors) : Bool :=
  toUser.length ≤ s.us && toParty.length ≤ s.ps && toTag.length ≤ s.ts

/-- One loop iteration's cursor update: each cursor is passed to `batch` with
its kind's batch size. -/
def stepCursors (toUser toParty toTag : List String) (s : Cursors) : Cursors :=
  ⟨(batch toUser s.us ToUserBatchSize).2,
   (batch toParty s.ps ToPartyBatchSize).2,
   (batch toTag s.ts ToTagBatchSize).2⟩

/-- One loop iteration's batch triple: the values assigned into
`nw.ToUser`, `nw.ToParty`, `nw.ToTag`. -/
def iterTriple (toUser toParty toTag : List String) (s : Cursors) :
    String × String × String :=
  ((batch toUser s.us ToUserBatchSize).1,
   (batch toParty s.ps ToPartyBatchSize).1,
   (batch toTag s.ts ToTagBatchSize).1)

/-- Termination measure for the batching loop. -/
def loopMeasure (toUser toParty toTag : List String) (s : Cursors) : Nat :=
  (toUser.length + 1 - s.us) + (toParty.length + 1 - s.ps) + (toTag.length + 1 - s.ts)

theorem batch_snd (src : List String) (index size : Nat) :
    (batch src index size).2 = if index ≤ src.length then index + size else index := by
  unfold batch
  rcases Nat.lt_or_ge src.length index with h | h
  · simp [Nat.not_le.mpr h, h]
  · simp [h, Nat.not_lt.mpr h]

theorem stepCursors_us (toUser toParty toTag : List String) (s : Cursors) :
    (stepCursors toUser toParty toTag s).us =
      if s.us ≤ toUser.length then s.us + ToUserBatchSize else s.us := by
  simp [stepCursors, batch_snd]

theorem stepCursors_ps (toUser toParty toTag : List String) (s : Cursors) :
    (stepCursors toUser toParty toTag s).ps =
      if s.ps ≤ toParty.length then s.ps + ToPartyBatchSize else s.ps := by
  simp [stepCursors, batch_snd]

theorem stepCursors_ts (toUser toParty toTag : List String) (s : Cursors) :
    (stepCursors toUser toParty toTag s).ts =
      if s.ts ≤ toTag.length then s.ts + ToTagBatchSize else s.ts := by
  simp [stepCursors, batch_snd]

theorem le_stepCursors_us (toUser toParty toTag : List String) (s : Cursors) :
    s.us ≤ (stepCursors toUser toParty toTag s).us := by
  rw [stepCursors_us]; split <;> omega

theorem le_stepCursors_ps (toUser toParty toTag : List String) (s : Cursors) :
    s.ps ≤ (stepCursors toUser toParty toTag s).ps := by
  rw [stepCursors_ps]; split <;> omega

theorem le_stepCursors_ts (toUser toParty toTag : List String) (s : Cursors) :
    s.ts ≤ (stepCursors toUser toParty toTag s).ts := by
  rw [stepCursors_ts]; split <;> omega

theorem loopMeasure_decreases (toUser toParty toTag : List String) (s : Cursors)
    (h : loopDone toUser toParty toTag s = false) :
    loopMeasure toUser toParty toTag (stepCursors toUser toParty toTag s) <
      loopMeasure toUser toParty toTag s := by
  have hus := stepCursors_us toUser toParty toTag s
  have hps := stepCursors_ps toUser toParty toTag s
  have hts := stepCursors_ts toUser toParty toTag s
  simp only [loopDone, Bool.and_eq_false_iff, decide_eq_false_iff_not, Nat.not_le] at h
  unfold loopMeasure
  have hUB : (0:Nat) < ToUserBatchSize := by decide
  have hPB : (0:Nat) < ToPartyBatchSize := by decide
  have hTB : (0:Nat) < ToTagBatchSize := by decide
  rcases h with h | h
  · rcases h with h | h
    · rw [if_pos (Nat.le_of_lt h)] at hus
      split at hps <;> split at hts <;> omega
    · rw [if_pos (Nat.le_of_lt h)] at hps
      split at hus <;> split at hts <;> omega
  · rw [if_pos (Nat.le_of_lt h)] at hts
    split at hus <;> split at hps <;> omega

/-- Fuel-indexed unrolling of the batching loop; `loopMeasure` strictly
decreases on every non-exit iteration, so `loopMeasure` units of fuel always
suffice and `runBatches` below is the loop's exact behaviour. -/
def runBatchesAux (toUser toParty toTag : List String) :
    Nat → Cursors → List (String × String × String)
  | 0, _ => []
  | fuel + 1, s =>
    if loopDone toUser toParty toTag s then []
    else
      iterTriple toUser toParty toTag s ::
        runBatchesAux toUser toParty toTag fuel (stepCursors toUser toParty toTag s)

/-- The batching loop itself: the list of batch triples produced for one
transport instance, in iteration order (one `DispatchTask` is created per
triple and message chunk). -/
def runBatches (toUser toParty toTag : List String) (s : Cursors) :
    List (String × String × String) :=
  runBatchesAux toUser toParty toTag (loopMeasure toUser toParty toTag s) s

theorem loopDone_of_measure_eq_zero (toUser toParty toTag : List String) (s : Cursors)
    (h : loopMeasure toUser toParty toTag s = 0) :
    loopDone toUser toParty toTag s = true := by
  unfold loopMeasure at h
  simp only [loopDone, Bool.and_eq_true, decide_eq_true_eq]
  omega

theorem runBatchesAux_fuel_irrel (toUser toParty toTag : List String) :
    ∀ f1 f2 s, loopMeasure toUser toParty toTag s ≤ f1 →
      loopMeasure toUser toParty toTag s ≤ f2 →
      runBatchesAux toUser toParty toTag f1 s = runBatchesAux toUser toParty toTag f2 s := by
  intro f1
  induction f1 with
  | zero =>
    intro f2 s h1 _
    have hd := loopDone_of_measure_eq_zero toUser toParty toTag s (Nat.le_zero.mp h1)
    cases f2 with
    | zero => rfl
    | succ f2 => simp [runBatchesAux, hd]
  | succ f1 ih =>
    intro f2 s h1 h2
    cases f2 with
    | zero =>
      have hd := loopDone_of_measure_eq_zero toUser toParty toTag s (Nat.le_zero.mp h2)
      simp [runBatchesAux, hd]
    | succ f2 =>
      simp only [runBatchesAux]
      by_cases hd : loopDone toUser toParty toTag s
      · simp [hd]
      · have hdec := loopMeasure_decreases toUser toParty toTag s (by simpa using hd)
        simp only [hd, if_false, Bool.false_eq_true]
        exact congrArg _ (ih f2 (stepCursors toUser toParty toTag s)
          (by omega) (by omega))

theorem runBatches_unfold (toUser toParty toTag : List String) (s : Cursors) :
    runBatches toUser toParty toTag s =
      if loopDone toUser toParty toTag s then []
      else iterTriple toUser toParty toTag s ::
        runBatches toUser toParty toTag (stepCursors toUser toParty toTag s) := by
  by_cases hd : loopDone toUser toParty toTag s
  · unfold runBatches
    cases hm : loopMeasure toUser toParty toTag s with
    | zero => simp [runBatchesAux, hd]
    | succ m => simp [runBatchesAux, hd]
  · have hdec := loopMeasure_decreases toUser toParty toTag s (by simpa using hd)
    unfold runBatches
    cases hm : loopMeasure toUser toParty toTag s with
    | zero =>
      have := loopDone_of_measure_eq_zero toUser toParty toTag s hm
      simp_all
    | succ m =>
      simp only [runBatchesAux, hd, if_false, Bool.false_eq_true]
      refine congrArg _ (runBatchesAux_fuel_irrel toUser toParty toTag m _ _ ?_ (le_refl _))
      omega

/-! Section: The send attempt (`sendMessage`, wechat.go lines 180-240)

A single attempt either fails before a response is decoded (token fetch,
message encode, url construction, request construction, http call, or body
unmarshal — each of those sites returns `(false, err)` in the source), or
yields a decoded `weChatResponse` with a `Code` and an `Error` message.  The
environment (token service, network, peer) is abstracted into the attempt's
outcome. -/

inductive AttemptOutcome where
  /-- Any of the pre-response failures (lines 182-224): getToken, encode,
  UrlWithPath, UrlWithParameters, NewRequest, DoHttpRequest, Unmarshal.  Each
  returns `(false, err)`. -/
  | transportErr (e : String)
  /-- A decoded `weChatResponse` with code `code` and error text `errMsg`. -/
  | resp (code : Int) (errMsg : String)
deriving DecidableEq, Repr

/-- The closure `sendMessage` (lines 180-240): returns `(retry, err)`.  Code `0` is
success `(false, nil)`; code `AccessTokenInvalid` spawns `invalidToken` and
returns `(true, error(weResp.Error))`; any other code logs the response error
and returns `(false, nil)` (line 239). -/
def sendMessage : AttemptOutcome → Bool × Option String
  | .transportErr e => (false, some e)
  | .resp code errMsg =>
    if code = 0 then (false, none)
    else if code = AccessTokenInvalid then (true, some errMsg)
    else (false, none)

/-- The closure `send` (lines 242-247): run `sendMessage`; when it signals retry, run it
exactly once more and keep the second result.  Returns the final error and
the number of attempts performed. -/
def send (o1 o2 : AttemptOutcome) : Option String × Nat :=
  let r1 := sendMessage o1
  if r1.1 then ((sendMessage o2).2, 2) else (r1.2, 1)

/-! Section: `Notifier.Notify` top level (wechat.go lines 250-283)

Go `strings.Split(s, "|")` never returns an empty slice: on `""` it yields
`[""]`.  We implement the split by structural recursion on the character
list. -/

/-- Splitting a character list at every `'|'`; always returns at least one
(possibly empty) field. -/
def splitBarAux : List Char → List String
  | [] => [""]
  | c :: rest =>
    let r := splitBarAux rest
    if c = '|' then "" :: r
    else String.mk (c :: (r.headD "").data) :: r.tail

/-- Go `strings.Split(s, "|")`. -/
def splitBar (s : String) : List String := splitBarAux s.data

/-- The number of `DispatchTask`s `Notify` registers on the group: one per
(instance, batching-loop iteration, message chunk). -/
def notifyTaskCount (instances : List WechatReceiver) (messages : List String) : Nat :=
  (instances.map (fun w =>
    (runBatches (splitBar w.toUser) (splitBar w.toParty) (splitBar w.toTag)
        ⟨0, 0, 0⟩).length * messages.length)).sum

/-- The method `Notify` (lines 250-283): on a `template.Split` error it logs and returns
`nil` (line 253) with no task created; otherwise it registers one task per
(instance, iteration, chunk) and `group.Wait()` collects the non-nil errors
of the registered tasks.  `env i` supplies the outcomes of task `i`'s first
and second send attempts; the returned pair is (collected error list, number
of tasks dispatched).  The group collects results in scheduler order; we fix
creation order, which is immaterial for emptiness and membership. -/
def Notify (split : Except String (List String)) (instances : List WechatReceiver)
    (env : Nat → AttemptOutcome × AttemptOutcome) : List String × Nat :=
  match split with
  | .error _ => ([], 0)
  | .ok messages =>
    let k := notifyTaskCount instances messages
    (((List.range k).map (fun i => (send (env i).1 (env i).2).1)).reduceOption, k)

/-! Section: Notifier construction options (wechat.go lines 85, 101-103, 250)

`NewWechatNotifier` initializes `messageMaxSize` to the constant and
overrides it when `opts.Wechat.MessageMaxSize > 0`. -/

structure WechatOptions where
  messageMaxSize : Int
deriving DecidableEq, Repr

/-- The notifier's `messageMaxSize` field as set by `NewWechatNotifier`. -/
def notifierMessageMaxSize (opts : Option WechatOptions) : Int :=
  match opts with
  | none => (MessageMaxSize : Int)
  | some o => if 0 < o.messageMaxSize then o.messageMaxSize else (MessageMaxSize : Int)

/-- The `maxSize` argument `Notify` passes to `n.template.Split` (line 250):
the source passes the package constant `MessageMaxSize`, independent of the
notifier's `messageMaxSize` field. -/
def splitSizeArg (_messageMaxSize : Int) : Int := (MessageMaxSize : Int)

/-! Section: Token invalidation and retry ordering (wechat.go lines 232-235, 333-336)

Modelled from the spec: `notifier.AccessTokenService` is not under src/; per
§4.2 `GetToken` returns a cached, non-expired token when present and
otherwise fetches and caches a fresh one, and `InvalidateToken` removes the
cached entry for the key, forcing the next `GetToken` to refetch.  We model
the cache at one fixed key. -/

structure TokenCache where
  entry : Option String
deriving DecidableEq, Repr

/-- Modelled from the spec (§4.2): cached token is reused when present;
otherwise the fresh token is fetched and cached. -/
def getTokenCache (c : TokenCache) (fresh : String) : String × TokenCache :=
  match c.entry with
  | some t => (t, c)
  | none => (fresh, ⟨some fresh⟩)

/-- Modelled from the spec (§4.2): invalidation removes the cached entry. -/
def invalidTokenCache (_c : TokenCache) : TokenCache := ⟨none⟩

/-- The two interleavings of the spawned invalidation and the retry's token
fetch.  wechat.go line 234 runs `invalidToken` as `go n.invalidToken(ctx, w)`,
an unsynchronized goroutine, so the scheduler may order it before or after
the retry's `getToken` (line 182 of the retry's `sendMessage` run). -/
inductive RetrySchedule where
  | invalidateThenFetch
  | fetchThenInvalidate
deriving DecidableEq, Repr

/-- The token the retry attempt uses, per interleaving, starting from the
cache state `c` that still holds the token the channel just rejected. -/
def retryTokenAfterExpiry (c : TokenCache) (fresh : String) : RetrySchedule → String
  | .invalidateThenFetch => (getTokenCache (invalidTokenCache c) fresh).1
  | .fetchThenInvalidate => (getTokenCache c fresh).1

/-! Section: Receiver merging in `NewWechatNotifier` (wechat.go lines 110-157) -/

/-- Go `strings.TrimPrefix(s, "|")`: drop one leading `'|'` when present. -/
def trimBar (s : String) : String :=
  match s.data with
  | c :: rest => if c = '|' then String.mk rest else s
  | [] => s

/-- Line 122-124: an empty `APIURL` is replaced by the default. -/
def withDefaultURL (r : WechatReceiver) : WechatReceiver :=
  if r.wechatConfig.apiURL.length = 0 then
    { r with wechatConfig := { r.wechatConfig with apiURL := DefaultApiURL } }
  else r

/-- Modelled from the spec: `config.Wechat.Clone` is not under src/.  Per §3
merging "is done via a content hash of the normalized config (destination
fields cleared)", and per §8 receivers with destination lists `["a","b"]` and
`["c"]` merge into exactly `"a|b|c"`.  wechat.go hashes the clone directly
(lines 126-127) and then concatenates each receiver's destination fields onto
the instance that starts from the clone (lines 133-151), so the spec's
normalization — destination fields cleared — must be performed by the clone:
we model `Clone` as a copy with the destination fields cleared. -/
def clone (r : WechatReceiver) : WechatReceiver :=
  { r with toUser := "", toParty := "", toTag := "" }

/-- Modelled from the spec: `notifier.Md5key` is not under src/.  Per §9 it is
a deterministic content hash of the normalized config; we model it as a
collision-free hash, i.e. the normalized config value itself. -/
def md5key (c : WechatReceiver) : WechatReceiver := c

def mapLookup (m : List (WechatReceiver × WechatReceiver)) (k : WechatReceiver) :
    Option WechatReceiver :=
  (m.find? (fun e => e.1 == k)).map (fun e => e.2)

/-- The store `n.wechat[key] = w`: replace the entry when the key is present, append it
otherwise (a functional model of the Go map store). -/
def mapInsert (m : List (WechatReceiver × WechatReceiver)) (k v : WechatReceiver) :
    List (WechatReceiver × WechatReceiver) :=
  if m.any (fun e => e.1 == k) then m.map (fun e => if e.1 == k then (k, v) else e)
  else m ++ [(k, v)]

/-- The loop body of `NewWechatNotifier` (lines 110-154) for one receiver:
default the API URL, clone and hash, fetch-or-start the merged instance, and
concatenate the receiver's nonempty destination fields with a `"|"` separator,
trimming a leading `"|"` after each kind (source order: ToUser, ToTag,
ToParty). -/
def addReceiver (m : List (WechatReceiver × WechatReceiver)) (r0 : WechatReceiver) :
    List (WechatReceiver × WechatReceiver) :=
  let r := withDefaultURL r0
  let c := clone r
  let key := md5key c
  let w0 := match mapLookup m key with
    | some w => w
    | none => c
  let u := trimBar (if 0 < r.toUser.length then w0.toUser ++ "|" ++ r.toUser else w0.toUser)
  let w1 := { w0 with toUser := u }
  let t := trimBar (if 0 < r.toTag.length then w1.toTag ++ "|" ++ r.toTag else w1.toTag)
  let w2 := { w1 with toTag := t }
  let p := trimBar (if 0 < r.toParty.length then w2.toParty ++ "|" ++ r.toParty else w2.toParty)
  let w3 := { w2 with toParty := p }
  mapInsert m key w3

/-- The `n.wechat` map built by `NewWechatNotifier` from the (wechat,
non-nil-config) receivers, in order. -/
def newWechatNotifier (receivers : List WechatReceiver) :
    List (WechatReceiver × WechatReceiver) :=
  receivers.foldl addReceiver []

/-- The spec's merged value of one destination field for two receivers: the
order-preserving `"|"`-joined concatenation of the two (possibly empty)
fields. -/
def mergedField (a b : String) : String :=
  if a.length = 0 then b else if b.length = 0 then a else a ++ "|" ++ b

/-! Section: The shared clone of the batching loop (wechat.go line 264)

In the source the clone `nw := w.Clone()` is created once per transport
instance, before the batching loop; every task closure registered by
`group.Add` captures this single `nw` and reads its destination fields only
when the task body runs (line 172-174 inside `send`).  Iteration `j` of the
loop overwrites `nw`'s fields with iteration `j`'s batch triple, so a task
created at iteration `k` whose body is scheduled after iteration `j ≥ k` has
written `nw` observes iteration `j`'s triple — a legal schedule, since the
tasks run asynchronously and `group.Wait()` is reached only after the loop. -/
def nwObserved (toUser toParty toTag : List String) (j : Nat) : String × String × String :=
  (runBatches toUser toParty toTag ⟨0, 0, 0⟩).getD j ("", "", "")

/-- Destination lists of a transport instance forcing two loop iterations:
one (empty-string) user, one (empty-string) tag, and 101 distinct parties
`p0..p100`, one more than `ToPartyBatchSize`. -/
def exUsers : List String := [""]

def exParties : List String := (List.range 101).map (fun i => "p" ++ toString i)

def exTags : List String := [""]

/-- Two receivers with the same transport identity (empty API URL, so both
are defaulted) and destination lists `["a","b"]` and `["c"]` — the spec's
concrete merge scenario. -/
def exR1 : WechatReceiver := ⟨⟨"", "agent", "corp", "secret"⟩, "a|b", "", ""⟩

def exR2 : WechatReceiver := ⟨⟨"", "agent", "corp", "secret"⟩, "c", "", ""⟩

/-! Section: Helper lemmas for the claim theorems -/

theorem batchSub_length_le (src : List String) (index size : Nat) :
    (batchSub src index size).length ≤ size := by
  unfold batchSub
  split
  · simp
  · split
    · rename_i h1 h2
      rw [List.length_drop]
      omega
    · rename_i h1 h2
      rw [List.length_take, List.length_drop]
      omega

theorem batch_fst_eq_foldl (src : List String) (index size : Nat) :
    (batch src index size).1 =
      (batchSub src index size).foldl (fun acc t => acc ++ t ++ "|") "" := by
  unfold batch batchSub
  split
  · simp
  · rfl

theorem string_eq_empty_of_length (a : String) (h : a.length = 0) : a = "" := by
  cases a with
  | mk d =>
    cases d with
    | nil => rfl
    | cons c cs => simp [String.length] at h

theorem data_append (a b : String) : (a ++ b).data = a.data ++ b.data :=
  String.data_append a b

theorem bar_append_eq (s : String) : ("" ++ "|" ++ s) = "|" ++ s := by
  apply String.ext
  rw [data_append, data_append, data_append]
  rfl

theorem trimBar_bar_append (s : String) : trimBar ("|" ++ s) = s := by
  cases s with
  | mk d => rfl

theorem trimBar_no_bar (s : String) (h : s.data.head? ≠ some '|') : trimBar s = s := by
  cases s with
  | mk d =>
    cases d with
    | nil => rfl
    | cons c rest =>
      have hc : c ≠ '|' := by
        intro he
        exact h (by rw [he]; rfl)
      show (if c = '|' then String.mk rest else String.mk (c :: rest)) = String.mk (c :: rest)
      rw [if_neg hc]

theorem append_bar_data (a b : String) : (a ++ "|" ++ b).data = a.data ++ '|' :: b.data := by
  rw [data_append, data_append]
  rw [show ("|" : String).data = ['|'] from rfl]
  rw [List.append_assoc]
  rfl

theorem mergeOnce_eq (a b : String) (ha : a.data.head? ≠ some '|') :
    trimBar (if 0 < b.length then a ++ "|" ++ b else a) = mergedField a b := by
  by_cases hb : 0 < b.length
  · rw [if_pos hb]
    by_cases ha0 : a.length = 0
    · have haE := string_eq_empty_of_length a ha0
      subst haE
      rw [bar_append_eq, trimBar_bar_append]
      simp [mergedField]
    · have hknot : (a ++ "|" ++ b).data.head? ≠ some '|' := by
        rw [append_bar_data]
        cases hd : a.data with
        | nil =>
          exfalso
          apply ha0
          have haE : a = "" := String.ext hd
          rw [haE]
          rfl
        | cons c cs =>
          rw [hd] at ha
          simpa using ha
      rw [trimBar_no_bar _ hknot]
      unfold mergedField
      rw [if_neg ha0, if_neg (by omega)]
  · rw [if_neg hb, trimBar_no_bar a ha]
    have hb0 : b.length = 0 := by omega
    have hbE := string_eq_empty_of_length b hb0
    subst hbE
    by_cases ha0 : a.length = 0
    · have haE := string_eq_empty_of_length a ha0
      subst haE
      simp [mergedField]
    · simp [mergedField, ha0]

theorem firstMerge_eq (a : String) :
    trimBar (if 0 < a.length then "" ++ "|" ++ a else "") = a := by
  by_cases ha : 0 < a.length
  · rw [if_pos ha, bar_append_eq, trimBar_bar_append]
  · rw [if_neg ha]
    have haE := string_eq_empty_of_length a (by omega)
    rw [haE]
    rfl

theorem withDefaultURL_toUser (r : WechatReceiver) : (withDefaultURL r).toUser = r.toUser := by
  unfold withDefaultURL
  split <;> rfl

theorem withDefaultURL_toParty (r : WechatReceiver) : (withDefaultURL r).toParty = r.toParty := by
  unfold withDefaultURL
  split <;> rfl

theorem withDefaultURL_toTag (r : WechatReceiver) : (withDefaultURL r).toTag = r.toTag := by
  unfold withDefaultURL
  split <;> rfl

theorem addReceiver_nil (r : WechatReceiver) :
    addReceiver [] r =
      [(⟨(withDefaultURL r).wechatConfig, "", "", ""⟩,
        ⟨(withDefaultURL r).wechatConfig, r.toUser, r.toParty, r.toTag⟩)] := by
  unfold addReceiver
  simp only [mapLookup, List.find?_nil, Option.map_none', md5key, clone]
  simp only [mapInsert, List.any_nil, Bool.false_eq_true, if_false, List.nil_append]
  rw [withDefaultURL_toUser, withDefaultURL_toParty, withDefaultURL_toTag]
  rw [firstMerge_eq, firstMerge_eq, firstMerge_eq]

theorem addReceiver_found (k w r : WechatReceiver)
    (hk : (⟨(withDefaultURL r).wechatConfig, "", "", ""⟩ : WechatReceiver) = k) :
    addReceiver [(k, w)] r =
      [(k,
        ⟨w.wechatConfig,
         trimBar (if 0 < r.toUser.length then w.toUser ++ "|" ++ r.toUser else w.toUser),
         trimBar (if 0 < r.toParty.length then w.toParty ++ "|" ++ r.toParty else w.toParty),
         trimBar (if 0 < r.toTag.length then w.toTag ++ "|" ++ r.toTag else w.toTag)⟩)] := by
  unfold addReceiver
  simp only [md5key, clone]
  rw [withDefaultURL_toUser, withDefaultURL_toParty, withDefaultURL_toTag]
  have hkey : (⟨(withDefaultURL r).wechatConfig, "", "", ""⟩ : WechatReceiver) = k := hk
  rw [hkey]
  simp only [mapLookup, List.find?_cons, beq_self_eq_true, if_pos, Option.map_some']
  simp only [mapInsert, List.any_cons, beq_self_eq_true, Bool.true_or, if_true, List.map_cons,
    List.map_nil]

theorem loop_reaches_done (toUser toParty toTag : List String) :
    ∀ m s, loopMeasure toUser toParty toTag s ≤ m →
      ∃ n, loopDone toUser toParty toTag ((stepCursors toUser toParty toTag)^[n] s) = true := by
  intro m
  induction m with
  | zero =>
    intro s h
    exact ⟨0, loopDone_of_measure_eq_zero toUser toParty toTag s (Nat.le_zero.mp h)⟩
  | succ m ih =>
    intro s h
    by_cases hd : loopDone toUser toParty toTag s
    · exact ⟨0, hd⟩
    · have hdec := loopMeasure_decreases toUser toParty toTag s (by simpa using hd)
      obtain ⟨n, hn⟩ := ih (stepCursors toUser toParty toTag s) (by omega)
      exact ⟨n + 1, by rw [Function.iterate_succ_apply]; exact hn⟩

/-! Section: Claim theorems -/

/-- C1 (corrected), counterexample: a send attempt whose channel response
carries code 40003 — neither success (0) nor token-invalid (42001) — is not
retried, but its failure is NOT reported: `send` returns a nil error (the
source logs the response error and returns `(false, nil)` at line 239), so
with a single such task `Notify` returns an empty error list.  This refutes
the claim that the error appears in the list returned by `Notify`. -/
theorem claim_c1_counterexample :
    send (AttemptOutcome.resp 40003 "invalid credential") (AttemptOutcome.resp 0 "") =
      (none, 1) ∧
    Notify (Except.ok ["m"]) [⟨⟨"u", "a", "c", "s"⟩, "x", "", ""⟩]
      (fun _ => (AttemptOutcome.resp 40003 "invalid credential", AttemptOutcome.resp 0 "")) =
      ([], 1) := by
  refine ⟨by decide, by decide⟩

/-- C1 (corrected), amended: for every send attempt whose channel response
carries a code that is neither the success code (0) nor the token-invalid
code (42001), the task is not retried (exactly one attempt is made), but the
failure is only logged, not reported: the attempt yields a nil error, so
nothing from it appears in the list returned by `Notify`. -/
theorem claim_c1_amended (code : Int) (errMsg : String) (o2 : AttemptOutcome)
    (h0 : code ≠ 0) (h1 : code ≠ AccessTokenInvalid) :
    send (AttemptOutcome.resp code errMsg) o2 = (none, 1) := by
  simp [send, sendMessage, h0, h1]

/-- Witness for the amended C1 at code 40003. -/
theorem claim_c1_amended_witness :
    (40003 : Int) ≠ 0 ∧ (40003 : Int) ≠ AccessTokenInvalid ∧
      send (AttemptOutcome.resp 40003 "e") (AttemptOutcome.resp 0 "") = (none, 1) :=
  ⟨by decide, by decide,
    claim_c1_amended 40003 "e" (AttemptOutcome.resp 0 "") (by decide) (by decide)⟩

/-- C2 (code_bug): the clone `nw` is created once per transport instance,
before the batching loop (wechat.go line 264), and every task closure reads
it at execution time, so tasks created in different iterations share the
mutated destination-batch state.  Concretely, for an instance with 101
parties (two loop iterations): the loop runs exactly 2 iterations; a task
created at iteration 0 whose body runs after iteration 1 has overwritten `nw`
(a legal schedule, as tasks run asynchronously and `group.Wait()` follows the
loop) observes iteration 1's triple, which differs from iteration 0's; its
`ToParty` payload is then the second batch `"p100|"`, so destination `"p0"`
— a member of iteration 0's party batch and of no other batch — is dropped
from its request, contradicting the claimed partition. -/
theorem claim_c2_shared_clone_bug :
    (runBatches exUsers exParties exTags ⟨0, 0, 0⟩).length = 2 ∧
    nwObserved exUsers exParties exTags 1 ≠ nwObserved exUsers exParties exTags 0 ∧
    (nwObserved exUsers exParties exTags 1).2.1 = "p100|" ∧
    "p0" ∈ batchSub exParties 0 ToPartyBatchSize ∧
    "p0" ∉ batchSub exParties 100 ToPartyBatchSize := by
  refine ⟨by rfl, by decide, by rfl, by decide, by decide⟩

/-- C3 (confirmed, spec-modelled `Clone`/`Md5key`): two receivers with
identical transport identity — identical normalized config, i.e. equal
destination-cleared clones after API-URL defaulting — collapse into exactly
one notifier instance, keyed by the (modelled) content hash of the normalized
config, whose ToUser/ToParty/ToTag are the order-preserving `"|"`-joined
concatenations of both receivers' destination fields, with the leading `"|"`
separator stripped and nothing dropped or duplicated.  The hypotheses
`hU, hT, hP` say the first receiver's raw destination fields do not begin
with a `"|"` separator. -/
theorem claim_c3_merge (r1 r2 : WechatReceiver)
    (h : clone (withDefaultURL r1) = clone (withDefaultURL r2))
    (hU : r1.toUser.data.head? ≠ some '|')
    (hT : r1.toTag.data.head? ≠ some '|')
    (hP : r1.toParty.data.head? ≠ some '|') :
    newWechatNotifier [r1, r2] =
      [(⟨(withDefaultURL r1).wechatConfig, "", "", ""⟩,
        ⟨(withDefaultURL r1).wechatConfig,
         mergedField r1.toUser r2.toUser,
         mergedField r1.toParty r2.toParty,
         mergedField r1.toTag r2.toTag⟩)] := by
  have hcfg : (withDefaultURL r2).wechatConfig = (withDefaultURL r1).wechatConfig := by
    have := congrArg WechatReceiver.wechatConfig h
    simpa [clone] using this.symm
  show newWechatNotifier [r1, r2] = _
  unfold newWechatNotifier
  rw [List.foldl_cons, List.foldl_cons, List.foldl_nil]
  rw [addReceiver_nil r1]
  rw [addReceiver_found _ _ r2 (by rw [hcfg])]
  rw [mergeOnce_eq r1.toUser r2.toUser hU, mergeOnce_eq r1.toParty r2.toParty hP,
    mergeOnce_eq r1.toTag r2.toTag hT]

/-- Witness for C3: the spec's concrete scenario — receivers with destination
lists `["a","b"]` and `["c"]` and the same transport identity merge into one
instance with ToUser `"a|b|c"`. -/
theorem claim_c3_merge_witness :
    clone (withDefaultURL exR1) = clone (withDefaultURL exR2) ∧
    exR1.toUser.data.head? ≠ some '|' ∧
    exR1.toTag.data.head? ≠ some '|' ∧
    exR1.toParty.data.head? ≠ some '|' ∧
    newWechatNotifier [exR1, exR2] =
      [(⟨(withDefaultURL exR1).wechatConfig, "", "", ""⟩,
        ⟨(withDefaultURL exR1).wechatConfig, "a|b|c", "", ""⟩)] := by
  refine ⟨by decide, by decide, by decide, by decide, ?_⟩
  rw [claim_c3_merge exR1 exR2 (by decide) (by decide) (by decide) (by decide)]
  decide

/-- C4 (confirmed): each dispatch task performs at most two send attempts; a
second attempt happens exactly when the first response carries the
token-invalid code 42001 (the only retryable outcome), and in that case the
second attempt's result is final; a task that succeeds on the first attempt,
or fails non-retryably, makes exactly one attempt. -/
theorem claim_c4_retry_policy (o1 o2 : AttemptOutcome) (m : String) :
    (send o1 o2).2 ≤ 2 ∧
    ((send o1 o2).2 = 2 ↔ ∃ e, o1 = AttemptOutcome.resp AccessTokenInvalid e) ∧
    send (AttemptOutcome.resp AccessTokenInvalid m) o2 = ((sendMessage o2).2, 2) := by
  have hA0 : (AccessTokenInvalid : Int) ≠ 0 := by decide
  refine ⟨?_, ?_, ?_⟩
  · cases h : (sendMessage o1).1 <;> simp [send, h]
  · cases o1 with
    | transportErr e => simp [send, sendMessage]
    | resp c e =>
      by_cases h1 : c = AccessTokenInvalid
      · subst h1
        simp [send, sendMessage, hA0]
      · by_cases h0 : c = 0
        · subst h0
          simp [send, sendMessage, h1]
        · simp [send, sendMessage, h0, h1]
  · simp [send, sendMessage, hA0]

/-- C5 (code_bug): with a positive configured Wechat `MessageMaxSize` of 100,
`NewWechatNotifier` stores 100 in the notifier's `messageMaxSize` field
(lines 101-103), but `Notify` passes the fixed constant `MessageMaxSize`
(2048) to `template.Split` (line 250), not the configured override: the
stored field is never used as the split bound. -/
theorem claim_c5_split_bound_bug :
    notifierMessageMaxSize (some ⟨100⟩) = 100 ∧
    splitSizeArg (notifierMessageMaxSize (some ⟨100⟩)) = 2048 ∧
    (2048 : Int) ≠ 100 := by
  refine ⟨by decide, by decide, by decide⟩

/-- C6 (corrected), counterexample: when template splitting fails, `Notify`
creates no task (so no send is attempted), but it returns `nil` (line 253):
the returned error list is empty and does not contain the template error,
refuting the claim that the error is surfaced to the caller. -/
theorem claim_c6_counterexample :
    Notify (Except.error "template: parsing failed") [⟨⟨"u", "a", "c", "s"⟩, "x", "", ""⟩]
      (fun _ => (AttemptOutcome.resp 0 "", AttemptOutcome.resp 0 "")) = ([], 0) ∧
    "template: parsing failed" ∉
      (Notify (Except.error "template: parsing failed") [⟨⟨"u", "a", "c", "s"⟩, "x", "", ""⟩]
        (fun _ => (AttemptOutcome.resp 0 "", AttemptOutcome.resp 0 ""))).1 := by
  refine ⟨rfl, by decide⟩

/-- C6 (corrected), amended: if template rendering/splitting fails, the
entire `Notify` call for that channel is abandoned — no send is attempted
(zero tasks are dispatched) — but the template error is only logged, not
surfaced: `Notify` returns the empty error list. -/
theorem claim_c6_amended (e : String) (instances : List WechatReceiver)
    (env : Nat → AttemptOutcome × AttemptOutcome) :
    Notify (Except.error e) instances env = ([], 0) := rfl

/-- C7 (code_bug): the source spawns `invalidToken` as a goroutine
(`go n.invalidToken(ctx, w)`, line 234), so the invalidation and the retry's
token fetch are unordered.  Under the scheduling in which the retry's
`GetToken` runs before the spawned invalidation, the cache still holds the
rejected token and the retry reuses exactly the stale token; only the other
interleaving yields a fresh token.  This refutes the claim that invalidation
is sequenced strictly before the retry's fetch. -/
theorem claim_c7_invalidation_race :
    retryTokenAfterExpiry ⟨some "stale-token"⟩ "fresh-token"
        RetrySchedule.fetchThenInvalidate = "stale-token" ∧
    retryTokenAfterExpiry ⟨some "stale-token"⟩ "fresh-token"
        RetrySchedule.invalidateThenFetch = "fresh-token" ∧
    "stale-token" ≠ "fresh-token" := by
  refine ⟨rfl, rfl, by decide⟩

/-- C8 (confirmed): for every input list, cursor position and size, the
recipients `batch` selects number at most `size` — in particular at most
1000 for ToUser, 100 for ToParty and 100 for ToTag — and the string `batch`
returns is exactly the `"|"`-joined rendering of that bounded selection. -/
theorem claim_c8_batch_cap (src : List String) (index size : Nat) :
    (batchSub src index size).length ≤ size ∧
    (batchSub src index ToUserBatchSize).length ≤ 1000 ∧
    (batchSub src index ToPartyBatchSize).length ≤ 100 ∧
    (batchSub src index ToTagBatchSize).length ≤ 100 ∧
    (batch src index size).1 =
      (batchSub src index size).foldl (fun acc t => acc ++ t ++ "|") "" := by
  refine ⟨batchSub_length_le src index size, ?_, ?_, ?_, batch_fst_eq_foldl src index size⟩
  · exact batchSub_length_le src index ToUserBatchSize
  · exact batchSub_length_le src index ToPartyBatchSize
  · exact batchSub_length_le src index ToTagBatchSize

/-- C9 (corrected), counterexample: with one user, 101 parties and one tag,
the loop runs a second iteration (the exit condition is false after the
first), yet the user cursor does not advance by its batch size there: it
stays at 1000, because `batch` returns early without advancing a cursor that
is already strictly past its list's end.  This refutes the claim that all
three cursors advance by their batch size once per iteration. -/
theorem claim_c9_counterexample :
    loopDone exUsers exParties exTags (stepCursors exUsers exParties exTags ⟨0, 0, 0⟩) = false ∧
    (stepCursors exUsers exParties exTags ⟨0, 0, 0⟩).us = 1000 ∧
    (stepCursors exUsers exParties exTags
      (stepCursors exUsers exParties exTags ⟨0, 0, 0⟩)).us = 1000 ∧
    (1000 : Nat) ≠ 1000 + ToUserBatchSize := by
  refine ⟨by decide, by decide, by decide, by decide⟩

/-- C9 (corrected), amended: per iteration, each cursor that has not yet
passed its list's end (position at most the length) advances by exactly its
kind's batch size, while a cursor already strictly past the end stays put;
iterations are never skipped — every non-exit state emits exactly one batch
triple — and an exhausted kind contributes the empty recipient field. -/
theorem claim_c9_amended (toUser toParty toTag : List String) (s : Cursors) :
    ((stepCursors toUser toParty toTag s).us =
      if s.us ≤ toUser.length then s.us + ToUserBatchSize else s.us) ∧
    ((stepCursors toUser toParty toTag s).ps =
      if s.ps ≤ toParty.length then s.ps + ToPartyBatchSize else s.ps) ∧
    ((stepCursors toUser toParty toTag s).ts =
      if s.ts ≤ toTag.length then s.ts + ToTagBatchSize else s.ts) ∧
    (runBatches toUser toParty toTag s =
      if loopDone toUser toParty toTag s then []
      else iterTriple toUser toParty toTag s ::
        runBatches toUser toParty toTag (stepCursors toUser toParty toTag s)) ∧
    ((batch toUser s.us ToUserBatchSize).1 =
      if toUser.length < s.us then ""
      else (batchSub toUser s.us ToUserBatchSize).foldl (fun acc t => acc ++ t ++ "|") "") := by
  refine ⟨stepCursors_us toUser toParty toTag s, stepCursors_ps toUser toParty toTag s,
    stepCursors_ts toUser toParty toTag s, runBatches_unfold toUser toParty toTag s, ?_⟩
  unfold batch
  split <;> rfl

/-- C10 (confirmed): the batching loop terminates on all finite destination
lists: every cursor is monotone under an iteration, a cursor that has not
reached its list's length strictly increases (expressed hypothesis-free via
`min`), and the exit condition — all three cursors at or past their lists'
lengths — is reached after finitely many iterations. -/
theorem claim_c10_termination (toUser toParty toTag : List String) (s : Cursors) :
    (s.us ≤ (stepCursors toUser toParty toTag s).us ∧
     s.ps ≤ (stepCursors toUser toParty toTag s).ps ∧
     s.ts ≤ (stepCursors toUser toParty toTag s).ts) ∧
    (min (s.us + 1) toUser.length ≤ (stepCursors toUser toParty toTag s).us ∧
     min (s.ps + 1) toParty.length ≤ (stepCursors toUser toParty toTag s).ps ∧
     min (s.ts + 1) toTag.length ≤ (stepCursors toUser toParty toTag s).ts) ∧
    ∃ n, loopDone toUser toParty toTag ((stepCursors toUser toParty toTag)^[n] s) = true := by
  refine ⟨⟨le_stepCursors_us toUser toParty toTag s, le_stepCursors_ps toUser toParty toTag s,
    le_stepCursors_ts toUser toParty toTag s⟩, ⟨?_, ?_, ?_⟩,
    loop_reaches_done toUser toParty toTag (loopMeasure toUser toParty toTag s) s (le_refl _)⟩
  · rw [stepCursors_us]
    simp only [ToUserBatchSize]
    split <;> omega
  · rw [stepCursors_ps]
    simp only [ToPartyBatchSize]
    split <;> omega
  · rw [stepCursors_ts]
    simp only [ToTagBatchSize]
    split <;> omega

end Wechat
